import Mathlib

/-!
Shallow embedding of `src/operator/nn/mkldnn/mkldnn_pooling.cc` (MKLDNN 2-D
pooling for MXNet): padding derivation, descriptor construction, the
per-thread signature caches, and the forward/backward execution paths.
Machine `int` arithmetic is modelled with `Int`; the C `%` operator is
truncated remainder, i.e. `Int.tmod`.
-/

namespace MkldnnPooling

/-- `pool_enum` pooling types (`kMaxPooling`, `kAvgPooling`, `kSumPooling`,
`kLpPooling`). -/
inductive PoolType
  | max
  | avg
  | sum
  | lp
deriving DecidableEq, Repr, Inhabited

/-- `pool_enum` pooling conventions (`kValid`, `kFull`). -/
inductive PoolingConvention
  | valid
  | full
deriving DecidableEq, Repr, Inhabited

/-- `mkldnn::algorithm` values used by this file. `other` stands for any
algorithm outside the pooling family. -/
inductive Algorithm
  | pooling_max
  | pooling_avg
  | pooling_avg_include_padding
  | pooling_avg_exclude_padding
  | other
deriving DecidableEq, Repr, Inhabited

/-- `mkldnn::prop_kind` values used by this file. -/
inductive PropKind
  | forward_training
  | forward_scoring
deriving DecidableEq, Repr, Inhabited

/-- `PoolingParam`: kernel/stride/pad are `TShape`s (lists of extents);
`count_include_pad` is `dmlc::optional<bool>`. -/
structure PoolingParam where
  kernel : List Int
  stride : List Int
  pad : List Int
  pool_type : PoolType
  pooling_convention : PoolingConvention
  global_pool : Bool
  count_include_pad : Option Bool
deriving DecidableEq, Repr, Inhabited

/-- `mkldnn::memory::desc` restricted to the 4-D (NCHW) shapes this file
builds: `dims[0..3]`, the data type, and the memory format tag. -/
structure MemDesc where
  n : Int
  c : Int
  h : Int
  w : Int
  dataType : Nat
  fmt : Nat
deriving DecidableEq, Repr, Inhabited

/-- The `mkldnn::memory::format_tag::any` tag. -/
def formatTagAny : Nat := 1

/-- The default (plain NCHW) format tag produced by `Reorder2Default`. -/
def formatTagDefault : Nat := 0

/-- The slice of `mxnet::NDArray` this file reads: the MKLDNN data
descriptor, and the `IsView` / `IsMKLDNNData` flags. -/
structure NDArray where
  md : MemDesc
  isView : Bool
  isMKLDNN : Bool
deriving DecidableEq, Repr, Inhabited

/-- `NDArray::Reorder2Default`: materialize into the default layout. -/
def Reorder2Default (a : NDArray) : NDArray :=
  { a with md := { a.md with fmt := formatTagDefault }, isMKLDNN := false }

/-- The fatal error conditions (`LOG(FATAL)` / failed `CHECK`) of the file. -/
inductive PoolError
  | notImplemented
  | zeroFilterDim
  | paddingNotSupported
  | padGeKernel
  | unknownPoolingMethod
  | algNotSupported
  | incorrectWorkspace
  | nullPrimitive
deriving DecidableEq, Repr, Inhabited

/-- `GetMKLDNNPoolAlgo` (lines 112-128): map `pool_type` to an MKLDNN
algorithm; unknown pooling methods are fatal. -/
def GetMKLDNNPoolAlgo (param : PoolingParam) : Except PoolError Algorithm :=
  match param.pool_type with
  | .max => .ok .pooling_max
  | .avg =>
      if param.count_include_pad = some false then
        .ok .pooling_avg_exclude_padding
      else
        .ok .pooling_avg_include_padding
  | _ => .error .unknownPoolingMethod

/-- `GetPaddingSizeFull` (lines 130-136): extra trailing padding for the
`full` pooling convention. C `%` on `int` is truncated remainder. -/
def GetPaddingSizeFull (x padl padr k s : Int) : Int :=
  if (x + padl + padr - k).tmod s ≠ 0 then
    padr + s - (x + padl + padr - k).tmod s
  else
    padr

/-- The propagation-kind selection shared verbatim by
`MKLDNNPoolingFwd::Init` (lines 55-58) and `GetPoolingFwdPdesc`
(lines 178-181): start from `forward_scoring`, switch to
`forward_training` when training and the algorithm is not `pooling_avg`. -/
def selectPropKind (is_train : Bool) (alg : Algorithm) : PropKind :=
  if is_train = true ∧ ¬ alg = .pooling_avg then
    .forward_training
  else
    .forward_scoring

/-- The effective geometry handed to `mkldnn::pooling_forward::desc` /
`mkldnn::pooling_backward::desc`. -/
structure PoolGeometry where
  kernel_h : Int
  kernel_w : Int
  stride_h : Int
  stride_w : Int
  pad_t : Int
  pad_l : Int
  pad_b : Int
  pad_r : Int
deriving DecidableEq, Repr, Inhabited

/-- The data of a `mkldnn::pooling_forward::primitive_desc` as built by
`GetPoolingFwdPdesc`. -/
structure FwdDesc where
  propKind : PropKind
  alg : Algorithm
  src : MemDesc
  dst : MemDesc
  geom : PoolGeometry
deriving DecidableEq, Repr, Inhabited

/-- The effective-geometry derivation of `GetPoolingFwdPdesc`
(lines 143-167): kernel from the input dims under `global_pool`, base
padding/stride from the parameters (padding symmetric per axis), the
full-convention trailing-padding replacement, then the global-pool
override of padding and stride. -/
def fwdEffectiveGeometry (param : PoolingParam) (data_md : MemDesc) :
    PoolGeometry :=
  let kernel_h : Int := if param.global_pool then data_md.h else param.kernel.getD 0 0
  let kernel_w : Int := if param.global_pool then data_md.w else param.kernel.getD 1 0
  let pad_t0 : Int := param.pad.getD 0 0
  let pad_l0 : Int := param.pad.getD 1 0
  let stride_h0 : Int := param.stride.getD 0 0
  let stride_w0 : Int := param.stride.getD 1 0
  let pad_b0 : Int :=
    if param.pooling_convention = .full then
      GetPaddingSizeFull data_md.h pad_t0 pad_t0 kernel_h stride_h0
    else pad_t0
  let pad_r0 : Int :=
    if param.pooling_convention = .full then
      GetPaddingSizeFull data_md.w pad_l0 pad_l0 kernel_w stride_w0
    else pad_l0
  let pad_t1 : Int := if param.global_pool then 0 else pad_t0
  let pad_b1 : Int := if param.global_pool then 0 else pad_b0
  let pad_l1 : Int := if param.global_pool then 0 else pad_l0
  let pad_r1 : Int := if param.global_pool then 0 else pad_r0
  let stride_h1 : Int := if param.global_pool then 1 else stride_h0
  let stride_w1 : Int := if param.global_pool then 1 else stride_w0
  { kernel_h := kernel_h, kernel_w := kernel_w
    stride_h := stride_h1, stride_w := stride_w1
    pad_t := pad_t1, pad_l := pad_l1
    pad_b := pad_b1, pad_r := pad_r1 }

/-- `GetPoolingFwdPdesc` (lines 138-192): derive the effective geometry
(global-pool override, full-convention trailing padding), validate it
(kernel rank, kernel positivity, the padding checks guarded by a non-zero
top/left padding), and build the forward primitive descriptor. -/
def GetPoolingFwdPdesc (param : PoolingParam) (is_train : Bool)
    (data_md out_md : MemDesc) : Except PoolError FwdDesc :=
  if ¬ param.kernel.length = 2 then .error .notImplemented else
  let g := fwdEffectiveGeometry param data_md
  if ¬ g.kernel_h > 0 then .error .zeroFilterDim else
  if ¬ g.kernel_w > 0 then .error .zeroFilterDim else
  if (¬ g.pad_t = 0 ∨ ¬ g.pad_l = 0) ∧
     ¬ (param.pool_type = .avg ∨ param.pool_type = .max) then
    .error .paddingNotSupported else
  if (¬ g.pad_t = 0 ∨ ¬ g.pad_l = 0) ∧ ¬ g.pad_l < g.kernel_w then
    .error .padGeKernel else
  if (¬ g.pad_t = 0 ∨ ¬ g.pad_l = 0) ∧ ¬ g.pad_t < g.kernel_h then
    .error .padGeKernel else
  match GetMKLDNNPoolAlgo param with
  | .error e => .error e
  | .ok alg =>
      .ok { propKind := selectPropKind is_train alg
            alg := alg
            src := data_md
            dst := out_md
            geom := g }

/-- `OpReqType`: the output-write policy of the graph framework. -/
inductive OpReqType
  | kNullOp
  | kWriteTo
  | kWriteInplace
  | kAddTo
deriving DecidableEq, Repr, Inhabited

/-- Modelled from the spec: `MKLDNNRequireWorkspace` is declared in
`mkldnn_pooling-inl.h`, which is not among the sources here; §4.3 derives
the workspace-required flag as `is_train AND pool_type == max`, and since
`GetPoolingFwd` computes `is_train && MKLDNNRequireWorkspace(param)`, the
helper itself is `pool_type == kMaxPooling`. -/
def MKLDNNRequireWorkspace (param : PoolingParam) : Bool :=
  param.pool_type = .max

/-- The state of a `MKLDNNPoolingFwd` object after construction: the
geometry and mode it was built for, the forward primitive descriptor data
built by `Init`, and a per-thread build identifier distinguishing distinct
constructed instances. -/
structure MKLDNNPoolingFwd where
  id : Nat
  geom : PoolGeometry
  alg : Algorithm
  with_workspace : Bool
  propKind : PropKind
  src : MemDesc
  dst : MemDesc
  hasPrimitive : Bool
deriving DecidableEq, Repr, Inhabited

/-- `MKLDNNPoolingFwd::Init` (lines 33-74): build `dst_md` from the source
dims and the output spatial shape, reject non-pooling algorithms, select
the propagation kind, and build the forward primitive. `id` is the build
identifier of the instance under construction. -/
def MKLDNNPoolingFwd_Init (input output : NDArray) (g : PoolGeometry)
    (is_train : Bool) (alg : Algorithm) (with_workspace : Bool) (id : Nat) :
    Except PoolError MKLDNNPoolingFwd :=
  let src_md := input.md
  let dst_md : MemDesc :=
    { n := src_md.n, c := src_md.c, h := output.md.h, w := output.md.w
      dataType := src_md.dataType, fmt := formatTagAny }
  if ¬ (alg = .pooling_max ∨ alg = .pooling_avg ∨
        alg = .pooling_avg_include_padding ∨
        alg = .pooling_avg_exclude_padding) then
    .error .algNotSupported
  else
    .ok { id := id, geom := g, alg := alg, with_workspace := with_workspace
          propKind := selectPropKind is_train alg
          src := src_md, dst := dst_md, hasPrimitive := true }

/-- Observable steps of `MKLDNNPoolingFwd::Execute`:
`registerPrimArgs b` is the hand-off of the argument map to the compute
backend, with `b` recording whether `MKLDNN_ARG_WORKSPACE` is present. -/
inductive FwdEvent
  | reorder
  | registerPrimArgs (hasWorkspace : Bool)
  | commitOutput
  | submit
deriving DecidableEq, Repr, Inhabited

/-- `MKLDNNPoolingFwd::Execute` (lines 76-110): reorder a non-canonical
view, build the argument map, require a workspace when the plan needs one
(fatal when absent, before any backend invocation), then register the
primitive, commit the output, and submit. On a fatal error the events
already performed are reported alongside the error. -/
def MKLDNNPoolingFwd_Execute (fwd : MKLDNNPoolingFwd) (in_data : NDArray)
    (req : OpReqType) (workspace : Option NDArray) :
    Except (PoolError × List FwdEvent) (List FwdEvent) :=
  let evs0 : List FwdEvent :=
    if in_data.isView && in_data.isMKLDNN then [.reorder] else []
  if fwd.with_workspace then
    match workspace with
    | none => .error (.incorrectWorkspace, evs0)
    | some _ =>
        if fwd.hasPrimitive then
          .ok (evs0 ++ [.registerPrimArgs true, .commitOutput, .submit])
        else
          .error (.nullPrimitive, evs0)
  else
    if fwd.hasPrimitive then
      .ok (evs0 ++ [.registerPrimArgs false, .commitOutput, .submit])
    else
      .error (.nullPrimitive, evs0)

/-- One entry of an `MKLDNNPoolingSignature` (`OpSignature`): the parameter
block, a boolean flag, or an array's shape/dtype/layout fingerprint, in the
order the `AddSign` calls append them. -/
inductive SigItem
  | ofParam (p : PoolingParam)
  | ofBool (b : Bool)
  | ofArray (a : NDArray)
deriving DecidableEq, Repr, Inhabited

/-- The forward-cache key of `GetPoolingFwd` (lines 209-213):
`MKLDNNPoolingSignature key(param); key.AddSign(is_train);
key.AddSign(with_workspace); key.AddSign(data); key.AddSign(output);`. -/
def fwdSignature (param : PoolingParam) (is_train with_workspace : Bool)
    (data output : NDArray) : List SigItem :=
  [.ofParam param, .ofBool is_train, .ofBool with_workspace,
   .ofArray data, .ofArray output]

/-- The backward-cache key of `GetPoolingBwd` (lines 293-296):
`MKLDNNPoolingSignature key(param); key.AddSign(in_data);
key.AddSign(in_grad); key.AddSign(out_grad);`. -/
def bwdSignature (param : PoolingParam) (in_data in_grad out_grad : NDArray) :
    List SigItem :=
  [.ofParam param, .ofArray in_data, .ofArray in_grad, .ofArray out_grad]

/-- Association-list lookup used to model `std::unordered_map::find` with
exact key equality. -/
def sigLookup (key : List SigItem) :
    List (List SigItem × α) → Option α
  | [] => none
  | (k, v) :: rest => if key = k then some v else sigLookup key rest

/-- The thread-local forward cache `pooling_fwds` together with the next
fresh build identifier. -/
structure FwdCache where
  entries : List (List SigItem × MKLDNNPoolingFwd)
  next : Nat
deriving DecidableEq, Repr, Inhabited

/-- The forward cache of a freshly started worker thread. -/
def emptyFwdCache : FwdCache := { entries := [], next := 0 }

/-- The miss branch of `GetPoolingFwd` (lines 217-255): recompute the
effective geometry exactly as `GetPoolingFwdPdesc` does, validate it, and
construct a new `MKLDNNPoolingFwd` (whose constructor, declared in
`mkldnn_pooling-inl.h`, forwards its arguments to `Init`). -/
def buildPoolingFwd (param : PoolingParam) (is_train : Bool)
    (data output : NDArray) (with_workspace : Bool) (id : Nat) :
    Except PoolError MKLDNNPoolingFwd :=
  if ¬ param.kernel.length = 2 then .error .notImplemented else
  let g := fwdEffectiveGeometry param data.md
  if ¬ g.kernel_h > 0 then .error .zeroFilterDim else
  if ¬ g.kernel_w > 0 then .error .zeroFilterDim else
  if (¬ g.pad_t = 0 ∨ ¬ g.pad_l = 0) ∧
     ¬ (param.pool_type = .avg ∨ param.pool_type = .max) then
    .error .paddingNotSupported else
  if (¬ g.pad_t = 0 ∨ ¬ g.pad_l = 0) ∧ ¬ g.pad_l < g.kernel_w then
    .error .padGeKernel else
  if (¬ g.pad_t = 0 ∨ ¬ g.pad_l = 0) ∧ ¬ g.pad_t < g.kernel_h then
    .error .padGeKernel else
  match GetMKLDNNPoolAlgo param with
  | .error e => .error e
  | .ok alg =>
      MKLDNNPoolingFwd_Init data output g is_train alg with_workspace id

/-- `GetPoolingFwd` (lines 194-259): resolve the thread-local forward cache
by signature; on a miss, build a new executor and insert it. The cache
state is passed and returned explicitly. -/
def GetPoolingFwd (param : PoolingParam) (is_train : Bool)
    (data output : NDArray) (cache : FwdCache) :
    Except PoolError (MKLDNNPoolingFwd × FwdCache) :=
  let with_workspace := is_train && MKLDNNRequireWorkspace param
  let key := fwdSignature param is_train with_workspace data output
  match sigLookup key cache.entries with
  | some fwd => .ok (fwd, cache)
  | none =>
      match buildPoolingFwd param is_train data output with_workspace cache.next with
      | .error e => .error e
      | .ok fwd =>
          .ok (fwd, { entries := (key, fwd) :: cache.entries
                      next := cache.next + 1 })

/-- The effective geometry recomputed inside `GetPoolingBwd`
(lines 325-346): kernel from the input dims under `global_pool`, the
full-convention trailing-padding adjustment, then the global-pool
override. No validity checks are performed here. -/
def bwdEffectiveGeometry (param : PoolingParam) (data_md : MemDesc) :
    PoolGeometry :=
  let kernel_h : Int := if param.global_pool then data_md.h else param.kernel.getD 0 0
  let kernel_w : Int := if param.global_pool then data_md.w else param.kernel.getD 1 0
  let pad_t0 : Int := param.pad.getD 0 0
  let pad_l0 : Int := param.pad.getD 1 0
  let stride_h0 : Int := param.stride.getD 0 0
  let stride_w0 : Int := param.stride.getD 1 0
  let pad_b0 : Int :=
    if param.pooling_convention = .full then
      GetPaddingSizeFull data_md.h pad_t0 pad_t0 kernel_h stride_h0
    else pad_t0
  let pad_r0 : Int :=
    if param.pooling_convention = .full then
      GetPaddingSizeFull data_md.w pad_l0 pad_l0 kernel_w stride_w0
    else pad_l0
  let pad_t1 : Int := if param.global_pool then 0 else pad_t0
  let pad_b1 : Int := if param.global_pool then 0 else pad_b0
  let pad_l1 : Int := if param.global_pool then 0 else pad_l0
  let pad_r1 : Int := if param.global_pool then 0 else pad_r0
  let stride_h1 : Int := if param.global_pool then 1 else stride_h0
  let stride_w1 : Int := if param.global_pool then 1 else stride_w0
  { kernel_h := kernel_h, kernel_w := kernel_w
    stride_h := stride_h1, stride_w := stride_w1
    pad_t := pad_t1, pad_l := pad_l1
    pad_b := pad_b1, pad_r := pad_r1 }

/-- The data of a `mkldnn::pooling_backward::primitive_desc` as built in
the miss branch of `GetPoolingBwd`: the algorithm, the gradient memory
descriptors, the recomputed geometry, and the forward primitive descriptor
used as the construction hint. -/
structure BwdDesc where
  alg : Algorithm
  diff_in_md : MemDesc
  diff_md : MemDesc
  geom : PoolGeometry
  hint : FwdDesc
deriving DecidableEq, Repr, Inhabited

/-- The backward-descriptor construction of `GetPoolingBwd`
(lines 313-351): build the forward primitive descriptor as the hint (with
`is_train = true`), select the algorithm, recompute the effective
geometry, and assemble the backward descriptor. -/
def GetPoolingBwdDesc (param : PoolingParam)
    (data_md out_md diff_md diff_in_md : MemDesc) :
    Except PoolError BwdDesc :=
  match GetPoolingFwdPdesc param true data_md out_md with
  | .error e => .error e
  | .ok fwd_pd =>
      match GetMKLDNNPoolAlgo param with
      | .error e => .error e
      | .ok alg =>
          .ok { alg := alg, diff_in_md := diff_in_md, diff_md := diff_md
                geom := bwdEffectiveGeometry param data_md
                hint := fwd_pd }

/-- The state of a `MKLDNNPoolingBwd` object: the backward primitive
descriptor, the workspace flag, and a per-thread build identifier. -/
structure MKLDNNPoolingBwd where
  id : Nat
  with_workspace : Bool
  desc : BwdDesc
deriving DecidableEq, Repr, Inhabited

/-- The thread-local backward cache `pooling_bwds` together with the next
fresh build identifier. -/
structure BwdCache where
  entries : List (List SigItem × MKLDNNPoolingBwd)
  next : Nat
deriving DecidableEq, Repr, Inhabited

/-- The backward cache of a freshly started worker thread. -/
def emptyBwdCache : BwdCache := { entries := [], next := 0 }

/-- `GetPoolingBwd` (lines 278-356): resolve the thread-local backward
cache by signature; on a miss, reorder the output gradient when needed,
assemble the memory descriptors, build the backward primitive descriptor,
and insert a new executor. -/
def GetPoolingBwd (param : PoolingParam)
    (in_data in_grad out_grad : NDArray) (cache : BwdCache) :
    Except PoolError (MKLDNNPoolingBwd × BwdCache) :=
  let with_workspace := MKLDNNRequireWorkspace param
  let key := bwdSignature param in_data in_grad out_grad
  match sigLookup key cache.entries with
  | some bwd => .ok (bwd, cache)
  | none =>
      let diff_dst_buff : NDArray :=
        if in_data.isMKLDNN = false ∧ out_grad.isMKLDNN = true then
          Reorder2Default out_grad
        else out_grad
      let data_md := in_data.md
      let out_md : MemDesc :=
        { n := data_md.n, c := data_md.c
          h := out_grad.md.h, w := out_grad.md.w
          dataType := data_md.dataType, fmt := formatTagAny }
      let diff_md := diff_dst_buff.md
      let diff_in_md : MemDesc :=
        { n := diff_md.n, c := diff_md.c
          h := in_grad.md.h, w := in_grad.md.w
          dataType := diff_md.dataType, fmt := formatTagAny }
      match GetPoolingBwdDesc param data_md out_md diff_md diff_in_md with
      | .error e => .error e
      | .ok bd =>
          let bwd : MKLDNNPoolingBwd :=
            { id := cache.next, with_workspace := with_workspace, desc := bd }
          .ok (bwd, { entries := (key, bwd) :: cache.entries
                      next := cache.next + 1 })

/-- Observable steps of `MKLDNNPoolingGradCompute`: temp-memory manager
initialization, the hand-off of the argument map to the compute backend
(recording whether `MKLDNN_ARG_WORKSPACE` is present), the commit into the
input-gradient buffer, and the stream submit. -/
inductive BwdEvent
  | tmpMemInit
  | registerPrimArgs (hasWorkspace : Bool)
  | commitOutput
  | submit
deriving DecidableEq, Repr, Inhabited

/-- `MKLDNNPoolingGradCompute` (lines 358-382): a `kNullOp` request returns
immediately; otherwise initialize the temp-memory manager, resolve the
backward executor from the cache, build the argument map (adding the
workspace only when the pooling type requires one AND the caller supplied
one), register the primitive, commit the input gradient, and submit. The
result is the list of performed steps plus the updated cache. -/
def MKLDNNPoolingGradCompute (param : PoolingParam)
    (out_grad in_data : NDArray) (workspace : Option NDArray)
    (req : OpReqType) (in_grad : NDArray) (cache : BwdCache) :
    Except PoolError (List BwdEvent × BwdCache) :=
  if req = .kNullOp then .ok ([], cache)
  else
    match GetPoolingBwd param in_data in_grad out_grad cache with
    | .error e => .error e
    | .ok (bwd, cache') =>
        let hasWs := MKLDNNRequireWorkspace param && workspace.isSome
        .ok ([.tmpMemInit, .registerPrimArgs hasWs, .commitOutput, .submit],
             cache')

/-- Follows the spec's words (§3, Signature): a signature assembled from
exactly the components the spec lists — the `PoolingParams` fields, the
training-mode flag, the workspace-required flag, the input descriptor and
the output descriptor. Kept separate from the code-derived `fwdSignature`
and `bwdSignature` so the two can be compared. -/
def specSignature (param : PoolingParam) (is_train ws_required : Bool)
    (input output : NDArray) : List SigItem :=
  [.ofParam param, .ofBool is_train, .ofBool ws_required,
   .ofArray input, .ofArray output]

/-- Follows the spec's words (§3, Signature): whether a signature consists
of exactly the component kinds the spec lists, in that arrangement — the
parameter block, two boolean mode flags, and two tensor descriptors. -/
def matchesSpecSignatureShape : List SigItem → Bool
  | [.ofParam _, .ofBool _, .ofBool _, .ofArray _, .ofArray _] => true
  | _ => false

/-- Extract the success value of an `Except`, defaulting on error; used
only to name concrete values in closed statements. -/
def getOk [Inhabited α] (e : Except PoolError α) : α :=
  match e with
  | .ok a => a
  | .error _ => default

/-- Decidable equality of `Except` results, so concrete runs of the
embedded operations can be checked by `decide`. -/
instance instDecidableEqExcept {ε α : Type} [DecidableEq ε] [DecidableEq α] :
    DecidableEq (Except ε α)
  | .ok a, .ok b => decidable_of_iff (a = b) (by simp)
  | .ok _, .error _ => isFalse (by simp)
  | .error _, .ok _ => isFalse (by simp)
  | .error a, .error b => decidable_of_iff (a = b) (by simp)

/-- Example parameters: 1×1 max pooling, stride 1, no padding, valid
convention. -/
def exampleMaxParam : PoolingParam :=
  { kernel := [1, 1], stride := [1, 1], pad := [0, 0], pool_type := .max
    pooling_convention := .valid, global_pool := false
    count_include_pad := none }

/-- Example parameters: global max pooling. -/
def exampleGlobalParam : PoolingParam :=
  { kernel := [1, 1], stride := [1, 1], pad := [0, 0], pool_type := .max
    pooling_convention := .valid, global_pool := true
    count_include_pad := none }

/-- Example parameters: 1×1 max pooling with stride 5 under the `full`
convention, which yields a trailing padding of 4 on a 2×2 input. -/
def exampleFullParam : PoolingParam :=
  { kernel := [1, 1], stride := [5, 5], pad := [0, 0], pool_type := .max
    pooling_convention := .full, global_pool := false
    count_include_pad := none }

/-- Example parameters: 3×3 max pooling with symmetric padding 1. -/
def examplePaddedParam : PoolingParam :=
  { kernel := [3, 3], stride := [1, 1], pad := [1, 1], pool_type := .max
    pooling_convention := .valid, global_pool := false
    count_include_pad := none }

/-- Example 1×1×2×2 memory descriptor. -/
def exampleMd : MemDesc := { n := 1, c := 1, h := 2, w := 2, dataType := 0, fmt := 0 }

/-- Example 1×1×1×1 array. -/
def exampleArray : NDArray :=
  { md := { n := 1, c := 1, h := 1, w := 1, dataType := 0, fmt := 0 }
    isView := false, isMKLDNN := false }

/-- Example 1×1×2×2 array, distinct from `exampleArray`. -/
def exampleArray2 : NDArray :=
  { md := exampleMd, isView := false, isMKLDNN := false }

/-- The forward descriptor of the C1 witness call. -/
def c1Desc : FwdDesc :=
  getOk (GetPoolingFwdPdesc exampleMaxParam true exampleMd exampleMd)

/-- The executor of the C1 witness `Init` call. -/
def c1Fwd : MKLDNNPoolingFwd :=
  getOk (MKLDNNPoolingFwd_Init exampleArray exampleArray default true
    .pooling_max true 0)

/-- The forward descriptor of the C3 witness call (global pooling). -/
def c3Desc : FwdDesc :=
  getOk (GetPoolingFwdPdesc exampleGlobalParam true exampleMd exampleMd)

/-- The executor of the C3 witness build call (global pooling). -/
def c3Fwd : MKLDNNPoolingFwd :=
  getOk (buildPoolingFwd exampleGlobalParam true exampleArray2 exampleArray
    true 0)

/-- The forward descriptor of the C4 counterexample call: `full`
convention produces a trailing padding that reaches the kernel extent
without any check firing. -/
def c4Desc : FwdDesc :=
  getOk (GetPoolingFwdPdesc exampleFullParam true exampleMd exampleMd)

/-- The forward descriptor of the C4 witness call (padded max pooling). -/
def c4PaddedDesc : FwdDesc :=
  getOk (GetPoolingFwdPdesc examplePaddedParam true exampleMd exampleMd)

/-- The backward descriptor of the C5 witness call. -/
def c5Bwd : BwdDesc :=
  getOk (GetPoolingBwdDesc exampleMaxParam exampleMd exampleMd exampleMd
    exampleMd)

/-- The executor and cache after the first C6 witness resolve. -/
def c6First : MKLDNNPoolingFwd × FwdCache :=
  getOk (GetPoolingFwd exampleMaxParam true exampleArray exampleArray
    emptyFwdCache)

/-- The executor and cache after the third C6 witness resolve (same inputs
except the output descriptor). -/
def c6Third : MKLDNNPoolingFwd × FwdCache :=
  getOk (GetPoolingFwd exampleMaxParam true exampleArray exampleArray2
    c6First.2)

/-- The C7 witness executor: a built forward executor whose plan requires
a workspace. -/
def c7Fwd : MKLDNNPoolingFwd :=
  getOk (buildPoolingFwd exampleMaxParam true exampleArray exampleArray
    true 0)

/-- The events and cache of the C8 counterexample call: backward max
pooling with no workspace supplied. -/
def c8Result : List BwdEvent × BwdCache :=
  getOk (MKLDNNPoolingGradCompute exampleMaxParam exampleArray exampleArray
    none .kWriteTo exampleArray emptyBwdCache)

/-! Shared inversion lemmas about the embedded operations. -/

/-- Equality of function values on `Except` successes determines the
algorithm: an `ok` result of `GetMKLDNNPoolAlgo` restricts `pool_type` to
max or average. -/
theorem getMKLDNNPoolAlgo_ok_poolType (param : PoolingParam) (alg : Algorithm)
    (h : GetMKLDNNPoolAlgo param = .ok alg) :
    param.pool_type = .max ∨ param.pool_type = .avg := by
  unfold GetMKLDNNPoolAlgo at h
  cases hpt : param.pool_type <;> simp [hpt] at h <;> simp

/-- A successful `GetPoolingFwdPdesc` returns exactly the descriptor built
from the effective geometry, the selected algorithm and the selected
propagation kind. -/
theorem getPoolingFwdPdesc_ok (param : PoolingParam) (is_train : Bool)
    (dmd omd : MemDesc) (d : FwdDesc)
    (h : GetPoolingFwdPdesc param is_train dmd omd = .ok d) :
    ∃ alg, GetMKLDNNPoolAlgo param = .ok alg ∧
      d = { propKind := selectPropKind is_train alg, alg := alg
            src := dmd, dst := omd, geom := fwdEffectiveGeometry param dmd } := by
  simp only [GetPoolingFwdPdesc] at h
  repeat' split at h
  any_goals cases h
  rename_i alg halg
  exact ⟨alg, halg, rfl⟩

/-- A successful `GetPoolingFwdPdesc` implies every validity check of the
descriptor builder passed. -/
theorem getPoolingFwdPdesc_ok_checks (param : PoolingParam) (is_train : Bool)
    (dmd omd : MemDesc) (d : FwdDesc)
    (h : GetPoolingFwdPdesc param is_train dmd omd = .ok d) :
    param.kernel.length = 2 ∧
    0 < (fwdEffectiveGeometry param dmd).kernel_h ∧
    0 < (fwdEffectiveGeometry param dmd).kernel_w ∧
    ((¬ (fwdEffectiveGeometry param dmd).pad_t = 0 ∨
      ¬ (fwdEffectiveGeometry param dmd).pad_l = 0) →
      (param.pool_type = .avg ∨ param.pool_type = .max) ∧
      (fwdEffectiveGeometry param dmd).pad_l < (fwdEffectiveGeometry param dmd).kernel_w ∧
      (fwdEffectiveGeometry param dmd).pad_t < (fwdEffectiveGeometry param dmd).kernel_h) := by
  simp only [GetPoolingFwdPdesc] at h
  repeat' split at h
  any_goals cases h
  rename_i h1 h2 h3 h4 h5 h6 alg halg
  exact ⟨by tauto, by omega, by omega, fun hp => ⟨by tauto, by tauto, by tauto⟩⟩

/-- A successful `buildPoolingFwd` returns an executor carrying the given
build identifier, the effective geometry of its input, the given workspace
flag, a live primitive, and the selected algorithm and propagation kind. -/
theorem buildPoolingFwd_ok (param : PoolingParam) (is_train : Bool)
    (data output : NDArray) (ws : Bool) (id : Nat) (f : MKLDNNPoolingFwd)
    (h : buildPoolingFwd param is_train data output ws id = .ok f) :
    f.id = id ∧ f.geom = fwdEffectiveGeometry param data.md ∧
    f.with_workspace = ws ∧ f.hasPrimitive = true ∧
    ∃ alg, GetMKLDNNPoolAlgo param = .ok alg ∧ f.alg = alg ∧
      f.propKind = selectPropKind is_train alg := by
  simp only [buildPoolingFwd, MKLDNNPoolingFwd_Init] at h
  repeat' split at h
  any_goals cases h
  rename_i alg halg hsupp
  exact ⟨rfl, rfl, rfl, rfl, alg, halg, rfl, rfl⟩

/-- The geometry recomputation of `GetPoolingBwd` coincides with the
geometry derivation of `GetPoolingFwdPdesc`: the two code paths duplicate
the same computation. -/
theorem bwd_fwd_geometry_eq (param : PoolingParam) (md : MemDesc) :
    bwdEffectiveGeometry param md = fwdEffectiveGeometry param md := rfl

/-- Under `global_pool` the effective geometry collapses to the input
spatial extent with unit stride and zero padding. -/
theorem fwdEffectiveGeometry_global (param : PoolingParam) (md : MemDesc)
    (hg : param.global_pool = true) :
    fwdEffectiveGeometry param md =
      { kernel_h := md.h, kernel_w := md.w, stride_h := 1, stride_w := 1
        pad_t := 0, pad_l := 0, pad_b := 0, pad_r := 0 } := by
  simp [fwdEffectiveGeometry, hg]

/-- C1: for every pooling request built in training mode the selected
propagation kind is `forward_training` unless the selected algorithm is
plain averaging (`pooling_avg`), in which case `forward_scoring` is used
even though training was requested; in non-training mode
`forward_scoring` is always used. Stated for both descriptor-building
paths: `GetPoolingFwdPdesc` and `MKLDNNPoolingFwd::Init`. -/
theorem c1_propagation_kind (param : PoolingParam) (is_train : Bool)
    (dmd omd : MemDesc) (d : FwdDesc) (input output : NDArray)
    (g : PoolGeometry) (alg : Algorithm) (ws : Bool) (id : Nat)
    (f : MKLDNNPoolingFwd)
    (h1 : GetPoolingFwdPdesc param is_train dmd omd = .ok d)
    (h2 : MKLDNNPoolingFwd_Init input output g is_train alg ws id = .ok f) :
    ((is_train = true → d.propKind =
        (if d.alg = .pooling_avg then .forward_scoring else .forward_training)) ∧
     (is_train = false → d.propKind = .forward_scoring)) ∧
    ((is_train = true → f.propKind =
        (if alg = .pooling_avg then .forward_scoring else .forward_training)) ∧
     (is_train = false → f.propKind = .forward_scoring)) := by
  obtain ⟨alg', halg', hd⟩ := getPoolingFwdPdesc_ok _ _ _ _ _ h1
  have hf : f.propKind = selectPropKind is_train alg := by
    simp only [MKLDNNPoolingFwd_Init] at h2
    split at h2
    · cases h2
    · cases h2; rfl
  subst hd
  refine ⟨⟨fun hit => ?_, fun hit => ?_⟩, ⟨fun hit => ?_, fun hit => ?_⟩⟩
  · subst hit
    by_cases ha : alg' = Algorithm.pooling_avg <;> simp [selectPropKind, ha]
  · subst hit
    simp [selectPropKind]
  · subst hit
    rw [hf]
    by_cases ha : alg = Algorithm.pooling_avg <;> simp [selectPropKind, ha]
  · subst hit
    rw [hf]
    simp [selectPropKind]

/-- C1 witness: a concrete training-mode max-pooling request selects
`forward_training` in both paths. -/
theorem c1_propagation_kind_witness :
    GetPoolingFwdPdesc exampleMaxParam true exampleMd exampleMd = .ok c1Desc ∧
    MKLDNNPoolingFwd_Init exampleArray exampleArray default true
      .pooling_max true 0 = .ok c1Fwd ∧
    (((true = true → c1Desc.propKind =
        (if c1Desc.alg = .pooling_avg then .forward_scoring else .forward_training)) ∧
      (true = false → c1Desc.propKind = .forward_scoring)) ∧
     ((true = true → c1Fwd.propKind =
        (if Algorithm.pooling_max = .pooling_avg then .forward_scoring else .forward_training)) ∧
      (true = false → c1Fwd.propKind = .forward_scoring))) :=
  ⟨by decide, by decide,
   c1_propagation_kind exampleMaxParam true exampleMd exampleMd c1Desc
     exampleArray exampleArray default .pooling_max true 0 c1Fwd
     (by decide) (by decide)⟩

/-- C2: for all `x, padl, padr ≥ 0`, `k > 0`, `s > 0`, the padding
calculator `GetPaddingSizeFull` returns a trailing padding that is at
least the base trailing padding and makes the padded extent minus the
kernel divisible by the stride (C truncated remainder). -/
theorem c2_padding_size_full (x padl padr k s : Int)
    (hx : 0 ≤ x) (hpl : 0 ≤ padl) (hpr : 0 ≤ padr) (hk : 0 < k) (hs : 0 < s) :
    padr ≤ GetPaddingSizeFull x padl padr k s ∧
    (x + padl + GetPaddingSizeFull x padl padr k s - k).tmod s = 0 := by
  unfold GetPaddingSizeFull
  by_cases h : (x + padl + padr - k).tmod s = 0
  · simp [h]
  · rw [if_pos h]
    constructor
    · have hlt : (x + padl + padr - k).tmod s < s :=
        Int.tmod_lt_of_pos (x + padl + padr - k) hs
      omega
    · have hdef : (x + padl + padr - k).tmod s
          = (x + padl + padr - k) - s * ((x + padl + padr - k).tdiv s) :=
        Int.tmod_def (x + padl + padr - k) s
      have hkey : x + padl + (padr + s - (x + padl + padr - k).tmod s) - k
          = s * (1 + (x + padl + padr - k).tdiv s) := by
        rw [hdef]; ring
      rw [hkey]
      exact Int.tmod_eq_zero_of_dvd (Dvd.intro _ rfl)

/-- C2 witness: `x = 5, padl = padr = 0, k = 2, s = 2` gives trailing
padding `1 ≥ 0` with `(5 + 0 + 1 - 2) mod 2 = 0`. -/
theorem c2_padding_size_full_witness :
    ((0:Int) ≤ 5 ∧ (0:Int) ≤ 0 ∧ (0:Int) < 2) ∧
    ((0:Int) ≤ GetPaddingSizeFull 5 0 0 2 2 ∧
     ((5:Int) + 0 + GetPaddingSizeFull 5 0 0 2 2 - 2).tmod 2 = 0) :=
  ⟨by decide,
   c2_padding_size_full 5 0 0 2 2 (by decide) (by decide) (by decide)
     (by decide) (by decide)⟩

/-- C3: for every `PoolingParam` with `global_pool = true`, the effective
geometry handed to the compute backend equals kernel = input spatial
extents, stride 1 on both axes, padding 0 on all four sides, regardless of
the configured kernel, stride, pad and pooling convention. Stated for both
forward construction paths: `GetPoolingFwdPdesc` and the cache-miss build
of `GetPoolingFwd`. -/
theorem c3_global_pool_geometry (param : PoolingParam) (is_train : Bool)
    (dmd omd : MemDesc) (d : FwdDesc) (data output : NDArray) (ws : Bool)
    (id : Nat) (f : MKLDNNPoolingFwd)
    (hg : param.global_pool = true)
    (h1 : GetPoolingFwdPdesc param is_train dmd omd = .ok d)
    (h2 : buildPoolingFwd param is_train data output ws id = .ok f) :
    d.geom = { kernel_h := dmd.h, kernel_w := dmd.w
               stride_h := 1, stride_w := 1
               pad_t := 0, pad_l := 0, pad_b := 0, pad_r := 0 } ∧
    f.geom = { kernel_h := data.md.h, kernel_w := data.md.w
               stride_h := 1, stride_w := 1
               pad_t := 0, pad_l := 0, pad_b := 0, pad_r := 0 } := by
  obtain ⟨alg, halg, hd⟩ := getPoolingFwdPdesc_ok _ _ _ _ _ h1
  obtain ⟨_, hgeom, _, _, _⟩ := buildPoolingFwd_ok _ _ _ _ _ _ _ h2
  subst hd
  exact ⟨by simp [fwdEffectiveGeometry_global param dmd hg],
         by rw [hgeom, fwdEffectiveGeometry_global param data.md hg]⟩

/-- C3 witness: a concrete global-pooling request over a 2×2 input yields
kernel 2×2, stride 1, zero padding in both construction paths. -/
theorem c3_global_pool_geometry_witness :
    exampleGlobalParam.global_pool = true ∧
    GetPoolingFwdPdesc exampleGlobalParam true exampleMd exampleMd = .ok c3Desc ∧
    buildPoolingFwd exampleGlobalParam true exampleArray2 exampleArray
      true 0 = .ok c3Fwd ∧
    (c3Desc.geom = { kernel_h := exampleMd.h, kernel_w := exampleMd.w
                     stride_h := 1, stride_w := 1
                     pad_t := 0, pad_l := 0, pad_b := 0, pad_r := 0 } ∧
     c3Fwd.geom = { kernel_h := exampleArray2.md.h, kernel_w := exampleArray2.md.w
                    stride_h := 1, stride_w := 1
                    pad_t := 0, pad_l := 0, pad_b := 0, pad_r := 0 }) :=
  ⟨by decide, by decide, by decide,
   c3_global_pool_geometry exampleGlobalParam true exampleMd exampleMd c3Desc
     exampleArray2 exampleArray true 0 c3Fwd (by decide) (by decide) (by decide)⟩

/-- C4 counterexample: under the `full` convention a trailing padding of 4
reaches past the 1×1 kernel extent (`pad_b ≥ kernel_h`, `pad_r ≥
kernel_w`), yet descriptor construction succeeds instead of failing
fatally — the code only checks the top/left padding. -/
theorem c4_counterexample :
    GetPoolingFwdPdesc exampleFullParam true exampleMd exampleMd = .ok c4Desc ∧
    c4Desc.geom.kernel_h ≤ c4Desc.geom.pad_b ∧
    c4Desc.geom.kernel_w ≤ c4Desc.geom.pad_r := by decide

/-- C4 (amended): whenever construction succeeds, the pool type is max or
average (any other type fails fatally, with or without padding), and the
effective top padding is strictly below the kernel height and the
effective left padding strictly below the kernel width; the trailing
(bottom/right) padding is not validated. -/
theorem c4_padding_validation (param : PoolingParam) (is_train : Bool)
    (dmd omd : MemDesc) (d : FwdDesc)
    (h : GetPoolingFwdPdesc param is_train dmd omd = .ok d) :
    (param.pool_type = .max ∨ param.pool_type = .avg) ∧
    d.geom.pad_t < d.geom.kernel_h ∧ d.geom.pad_l < d.geom.kernel_w := by
  obtain ⟨alg, halg, hd⟩ := getPoolingFwdPdesc_ok _ _ _ _ _ h
  obtain ⟨hlen, hkh, hkw, hpad⟩ := getPoolingFwdPdesc_ok_checks _ _ _ _ _ h
  subst hd
  refine ⟨getMKLDNNPoolAlgo_ok_poolType _ _ halg, ?_, ?_⟩
  · by_cases hz : (fwdEffectiveGeometry param dmd).pad_t = 0
    · simp only [hz]
      exact hkh
    · exact (hpad (Or.inl hz)).2.2
  · by_cases hz : (fwdEffectiveGeometry param dmd).pad_l = 0
    · simp only [hz]
      exact hkw
    · exact (hpad (Or.inr hz)).2.1

/-- C4 witness: a concrete padded 3×3 max pooling succeeds, and its
top/left padding of 1 is strictly below the kernel extent 3. -/
theorem c4_padding_validation_witness :
    GetPoolingFwdPdesc examplePaddedParam true exampleMd exampleMd
      = .ok c4PaddedDesc ∧
    ((examplePaddedParam.pool_type = .max ∨ examplePaddedParam.pool_type = .avg) ∧
     c4PaddedDesc.geom.pad_t < c4PaddedDesc.geom.kernel_h ∧
     c4PaddedDesc.geom.pad_l < c4PaddedDesc.geom.kernel_w) :=
  ⟨by decide,
   c4_padding_validation examplePaddedParam true exampleMd exampleMd
     c4PaddedDesc (by decide)⟩

/-- C5: whenever the backward descriptor construction succeeds, the
forward descriptor construction on the same parameters and memory
descriptors succeeded (so the rank-2, positivity and padding checks of the
forward path were all passed on the way), its result is exactly the
construction hint stored in the backward descriptor, and the effective
geometry recomputed by the backward path equals the forward geometry. -/
theorem c5_backward_geometry (param : PoolingParam)
    (data_md out_md diff_md diff_in_md : MemDesc) (bd : BwdDesc)
    (h : GetPoolingBwdDesc param data_md out_md diff_md diff_in_md = .ok bd) :
    GetPoolingFwdPdesc param true data_md out_md = .ok bd.hint ∧
    bd.geom = bd.hint.geom := by
  simp only [GetPoolingBwdDesc] at h
  split at h
  · cases h
  rename_i fd hfd
  split at h
  · cases h
  rename_i alg halg
  cases h
  obtain ⟨alg', halg', hd⟩ := getPoolingFwdPdesc_ok param true data_md out_md fd hfd
  exact ⟨hfd, by simp [hd, bwd_fwd_geometry_eq]⟩

/-- C5 witness: a concrete backward construction whose recomputed geometry
matches the forward hint's geometry. -/
theorem c5_backward_geometry_witness :
    GetPoolingBwdDesc exampleMaxParam exampleMd exampleMd exampleMd exampleMd
      = .ok c5Bwd ∧
    (GetPoolingFwdPdesc exampleMaxParam true exampleMd exampleMd = .ok c5Bwd.hint ∧
     c5Bwd.geom = c5Bwd.hint.geom) :=
  ⟨by decide,
   c5_backward_geometry exampleMaxParam exampleMd exampleMd exampleMd
     exampleMd c5Bwd (by decide)⟩

/-- C6: starting from a fresh thread-local cache, a second resolve with
bit-identical (params, is_train, input, output) returns the same executor
and leaves the cache untouched (no rebuild), while a resolve differing
only in the output descriptor yields a distinct executor. -/
theorem c6_cache_idempotent (param : PoolingParam) (is_train : Bool)
    (data output output' : NDArray) (f1 f2 : MKLDNNPoolingFwd)
    (c1 c2 : FwdCache)
    (h1 : GetPoolingFwd param is_train data output emptyFwdCache = .ok (f1, c1))
    (hne : ¬ output' = output)
    (h3 : GetPoolingFwd param is_train data output' c1 = .ok (f2, c2)) :
    GetPoolingFwd param is_train data output c1 = .ok (f1, c1) ∧ ¬ f2 = f1 := by
  simp only [GetPoolingFwd, emptyFwdCache, sigLookup] at h1
  split at h1
  · cases h1
  rename_i fwd hbuild
  cases h1
  constructor
  · simp [GetPoolingFwd, sigLookup]
  · have hkne : ¬ (fwdSignature param is_train
        (is_train && MKLDNNRequireWorkspace param) data output'
        = fwdSignature param is_train
        (is_train && MKLDNNRequireWorkspace param) data output) := by
      simpa [fwdSignature] using hne
    simp only [GetPoolingFwd, sigLookup, if_neg hkne] at h3
    split at h3
    · cases h3
    rename_i fwd2 hbuild2
    cases h3
    have hid1 : f1.id = 0 := (buildPoolingFwd_ok _ _ _ _ _ _ _ hbuild).1
    have hid2 : f2.id = 0 + 1 := (buildPoolingFwd_ok _ _ _ _ _ _ _ hbuild2).1
    intro heq
    rw [heq, hid1] at hid2
    omega

/-- C6 witness: concrete resolves on a fresh cache — a repeated call hits
and returns the same executor and cache, a call with a different output
descriptor builds a distinct executor. -/
theorem c6_cache_idempotent_witness :
    GetPoolingFwd exampleMaxParam true exampleArray exampleArray emptyFwdCache
      = .ok (c6First.1, c6First.2) ∧
    ¬ exampleArray2 = exampleArray ∧
    GetPoolingFwd exampleMaxParam true exampleArray exampleArray2 c6First.2
      = .ok (c6Third.1, c6Third.2) ∧
    (GetPoolingFwd exampleMaxParam true exampleArray exampleArray c6First.2
      = .ok (c6First.1, c6First.2) ∧ ¬ c6Third.1 = c6First.1) :=
  ⟨by decide, by decide, by decide,
   c6_cache_idempotent exampleMaxParam true exampleArray exampleArray
     exampleArray2 c6First.1 c6Third.1 c6First.2 c6Third.2
     (by decide) (by decide) (by decide)⟩

/-- C7: a forward execution whose plan requires a workspace fails fatally
on a null workspace with only the (tensor-runtime) reorder step possibly
performed — no backend registration and no submit — while a non-null
workspace lets the call proceed and register the argument map with the
workspace present (populating it at submit). -/
theorem c7_forward_workspace_required (fwd : MKLDNNPoolingFwd)
    (in_data : NDArray) (req : OpReqType) (w : NDArray)
    (hw : fwd.with_workspace = true) (hp : fwd.hasPrimitive = true) :
    ∃ evs0, MKLDNNPoolingFwd_Execute fwd in_data req none
        = .error (.incorrectWorkspace, evs0) ∧
      (∀ b, FwdEvent.registerPrimArgs b ∉ evs0) ∧ FwdEvent.submit ∉ evs0 ∧
      MKLDNNPoolingFwd_Execute fwd in_data req (some w)
        = .ok (evs0 ++ [.registerPrimArgs true, .commitOutput, .submit]) := by
  refine ⟨if in_data.isView && in_data.isMKLDNN then [.reorder] else [],
    ?_, ?_, ?_, ?_⟩
  · simp [MKLDNNPoolingFwd_Execute, hw]
  · intro b
    by_cases hv : in_data.isView && in_data.isMKLDNN <;> simp [hv]
  · by_cases hv : in_data.isView && in_data.isMKLDNN <;> simp [hv]
  · simp [MKLDNNPoolingFwd_Execute, hw, hp]

/-- C7 witness: a concrete workspace-requiring executor fails with the
incorrect-workspace error on a null workspace and proceeds with the
workspace argument when one is supplied. -/
theorem c7_forward_workspace_required_witness :
    c7Fwd.with_workspace = true ∧ c7Fwd.hasPrimitive = true ∧
    (∃ evs0, MKLDNNPoolingFwd_Execute c7Fwd exampleArray .kWriteTo none
        = .error (.incorrectWorkspace, evs0) ∧
      (∀ b, FwdEvent.registerPrimArgs b ∉ evs0) ∧ FwdEvent.submit ∉ evs0 ∧
      MKLDNNPoolingFwd_Execute c7Fwd exampleArray .kWriteTo (some exampleArray2)
        = .ok (evs0 ++ [.registerPrimArgs true, .commitOutput, .submit])) :=
  ⟨by decide, by decide,
   c7_forward_workspace_required c7Fwd exampleArray .kWriteTo exampleArray2
     (by decide) (by decide)⟩

/-- C8 counterexample: a backward max-pooling call with no workspace
supplied does not fail — it proceeds and invokes the compute backend with
a workspace-free argument map, contrary to the claimed
missing-resource failure. -/
theorem c8_counterexample :
    MKLDNNPoolingGradCompute exampleMaxParam exampleArray exampleArray none
      .kWriteTo exampleArray emptyBwdCache = .ok c8Result ∧
    c8Result.1 = [.tmpMemInit, .registerPrimArgs false, .commitOutput,
      .submit] := by decide

/-- C8 (amended): a backward execution for a workspace-requiring pooling
type with no workspace supplied raises no error: whenever it returns, it
has registered the argument map with the compute backend WITHOUT the
workspace argument and committed the gradient. -/
theorem c8_backward_missing_workspace (param : PoolingParam)
    (out_grad in_data in_grad : NDArray) (cache : BwdCache) (req : OpReqType)
    (evs : List BwdEvent) (cache' : BwdCache)
    (hws : MKLDNNRequireWorkspace param = true)
    (hreq : ¬ req = .kNullOp)
    (h : MKLDNNPoolingGradCompute param out_grad in_data none req in_grad cache
          = .ok (evs, cache')) :
    evs = [.tmpMemInit, .registerPrimArgs false, .commitOutput, .submit] := by
  simp only [MKLDNNPoolingGradCompute, if_neg hreq] at h
  split at h
  · cases h
  · simp_all

/-- C8 witness: the concrete backward max-pooling call of the
counterexample satisfies the amended statement. -/
theorem c8_backward_missing_workspace_witness :
    MKLDNNRequireWorkspace exampleMaxParam = true ∧
    ¬ OpReqType.kWriteTo = OpReqType.kNullOp ∧
    MKLDNNPoolingGradCompute exampleMaxParam exampleArray exampleArray none
      .kWriteTo exampleArray emptyBwdCache = .ok (c8Result.1, c8Result.2) ∧
    c8Result.1 = [.tmpMemInit, .registerPrimArgs false, .commitOutput,
      .submit] :=
  ⟨by decide, by decide, by decide,
   c8_backward_missing_workspace exampleMaxParam exampleArray exampleArray
     exampleArray emptyBwdCache .kWriteTo c8Result.1 c8Result.2
     (by decide) (by decide) (by decide)⟩

/-- C9 counterexample: the backward cache key does not have the
five-component shape the spec prescribes for every cache signature — it
consists of the parameter block and three array fingerprints, with no
boolean mode flags — while the spec-shaped signature does. -/
theorem c9_counterexample :
    matchesSpecSignatureShape (specSignature exampleMaxParam true true
      exampleArray exampleArray2) = true ∧
    matchesSpecSignatureShape (bwdSignature exampleMaxParam exampleArray
      exampleArray exampleArray2) = false := by decide

/-- C9 (amended): the forward cache key is built over exactly the
components the spec lists (params, training flag, workspace-required flag,
input, output); the backward cache key is built over the params and the
three arrays (input data, input gradient, output gradient) only, with no
mode flags, and never matches the spec's five-component shape. -/
theorem c9_cache_signatures (param : PoolingParam) (is_train ws : Bool)
    (data output in_data in_grad out_grad : NDArray) :
    fwdSignature param is_train ws data output
      = specSignature param is_train ws data output ∧
    matchesSpecSignatureShape (fwdSignature param is_train ws data output)
      = true ∧
    bwdSignature param in_data in_grad out_grad
      = [.ofParam param, .ofArray in_data, .ofArray in_grad,
         .ofArray out_grad] ∧
    matchesSpecSignatureShape (bwdSignature param in_data in_grad out_grad)
      = false :=
  ⟨rfl, rfl, rfl, rfl⟩

/-- C10: a backward call with the no-op write policy returns immediately
with no side effects: the event trace is empty (no temp-memory
initialization, no backend registration, no commit into the input-gradient
buffer, no submit) and the backward cache is returned unchanged (no plan
constructed or inserted). -/
theorem c10_nullop_no_side_effects (param : PoolingParam)
    (out_grad in_data in_grad : NDArray) (workspace : Option NDArray)
    (cache : BwdCache) :
    MKLDNNPoolingGradCompute param out_grad in_data workspace .kNullOp
      in_grad cache = .ok ([], cache) := by
  simp [MKLDNNPoolingGradCompute]

end MkldnnPooling
